import Mathlib

/-!
# Verification model of the Expedite typed router (zensors/expedite)

This file embeds the core of the Expedite request-chain builder in Lean and
proves properties of it.  The repository ships three variants of the same
module:

* the canonical, documented variant (`src/unnamed/part_000`), in which the
  wrappers registered by `Router.then` / `LeafRouter.then` / `LeafRouter.return`
  / `LeafRouter.finish` catch a failing user function and forward the failure
  to the `next` continuation's error path, and in which `marshalParams`,
  `marshalQuery` and `marshalBody` validate `req.params`, `req.query` and
  `req.body` respectively;
* two legacy variants (`src/src/index.ts` and `src/unnamed/part_001`) whose
  wrappers have no try/catch — a failing user function produces a rejected
  promise that escapes the pipeline, never reaching the `next` error path —
  and whose `marshalParams` / `marshalQuery` validate `req.body` instead of
  the facet they name and statically narrow.

Both wrapper flavours are embedded (`thenWrapper` vs `thenWrapperNoCatch`,
`returnWrapper` vs `returnWrapperNoCatch`), as are both marshalling flavours.

The embedding is in three layers:

1. a request-time layer: a registered Express handler is a function from the
   request to the (possibly mutated) request together with what the handler
   does with its continuation (`next()`, `next(e)`, sending a response, or
   letting a rejection escape); `execChain` runs a registered handler list on
   a request the way the dispatch engine does, in order, stopping at the
   first handler that does not call `next()`;
2. a validation layer for the narrowing-step factories, with a small value /
   descriptor language standing in for the external marshalling library;
3. a builder layer: `Router` / `LeafRouter` instances with their one-shot
   `consumed` flag, the shared underlying `ExpressRouter` modelled as an
   index into a store of handler lists (`World`), and each builder method
   translated statement by statement from the source.
-/

namespace Expedite

/-- What a registered handler does after running on a request: call the
`next` continuation, call it with an error (the single error channel), send
a response and call nothing, or let an exception/rejection escape the
pipeline without calling `next` at all. -/
inductive HandlerAct (Resp Err : Type) where
  | next : HandlerAct Resp Err
  | nextErr (e : Err) : HandlerAct Resp Err
  | send (s : Resp) : HandlerAct Resp Err
  | uncaught (e : Err) : HandlerAct Resp Err
deriving DecidableEq

/-- A registered Express handler, as it behaves on one request: it may mutate
the request (first component of the result) and then performs one
`HandlerAct`. -/
def Handler (Req Resp Err : Type) : Type :=
  Req → Req × HandlerAct Resp Err

/-- A user step function as it behaves at request time: it may mutate the
request in place (first component) and may fail (second component).  The
builder wrappers discard a step's return value — narrowing is purely
static — so in-place mutation is the only request-visible effect. -/
def Step (Req Err : Type) : Type :=
  Req → Req × Option Err

/-- The outcome of running a compiled handler chain on one request:
the final request state, the response sent (if any), the errors forwarded
to the single error channel via `next(e)`, and an error that escaped the
pipeline uncaught (if any). -/
structure Outcome (Req Resp Err : Type) where
  req : Req
  response : Option Resp
  errors : List Err
  uncaught : Option Err
deriving DecidableEq

/-- Dispatch-engine semantics for a registered handler list on one request:
run handlers in registration order; `next()` continues with the rest,
`next(e)` abandons the rest and forwards `e` to the error channel, sending a
response ends the chain, and an uncaught failure ends the chain with nothing
forwarded. -/
def execChain {Req Resp Err : Type} :
    List (Handler Req Resp Err) → Req → Outcome Req Resp Err
  | [], r => ⟨r, none, [], none⟩
  | h :: hs, r =>
    match h r with
    | (r2, .next) => execChain hs r2
    | (r2, .nextErr e) => ⟨r2, none, [e], none⟩
    | (r2, .send s) => ⟨r2, some s, [], none⟩
    | (r2, .uncaught e) => ⟨r2, none, [], some e⟩

/-- The middleware wrapper built by `Router.then` and `LeafRouter.then` in the
canonical variant (src/unnamed/part_000):
`try { await fn(req); next(); } catch (e) { next(e); }`. -/
def thenWrapper {Req Resp Err : Type} (fn : Step Req Err) : Handler Req Resp Err :=
  fun req =>
    match fn req with
    | (req2, none) => (req2, .next)
    | (req2, some e) => (req2, .nextErr e)

/-- The middleware wrapper built by `Router.then` and `LeafRouter.then` in the
legacy variants (src/src/index.ts, src/unnamed/part_001):
`await fn(req); next();` with no try/catch — a failing step rejects the
wrapper's promise, which escapes the pipeline; `next` is never called. -/
def thenWrapperNoCatch {Req Resp Err : Type} (fn : Step Req Err) : Handler Req Resp Err :=
  fun req =>
    match fn req with
    | (req2, none) => (req2, .next)
    | (req2, some e) => (req2, .uncaught e)

/-- The terminal wrapper built by `LeafRouter.return` in the canonical variant
(src/unnamed/part_000): `try { let reply = await fn(req); res.send(reply); }
catch (e) { next(e); }`. -/
def returnWrapper {Req Resp Err : Type} (fn : Req → Except Err Resp) :
    Handler Req Resp Err :=
  fun req =>
    match fn req with
    | .ok s => (req, .send s)
    | .error e => (req, .nextErr e)

/-- The terminal wrapper built by `LeafRouter.return` in the legacy variants
(src/src/index.ts, src/unnamed/part_001):
`let reply = await fn(req); res.send(reply);` with no try/catch and no
`next` parameter — a failure of `fn` rejects the wrapper's promise, which
escapes; no response is sent and nothing reaches the error channel. -/
def returnWrapperNoCatch {Req Resp Err : Type} (fn : Req → Except Err Resp) :
    Handler Req Resp Err :=
  fun req =>
    match fn req with
    | .ok s => (req, .send s)
    | .error e => (req, .uncaught e)

/-- Reference semantics of a sequence of step functions: run them left to
right, threading the request, stopping at the first failure (which reports
the request state at the failure point). -/
def runSteps {Req Err : Type} : List (Step Req Err) → Req → Req × Option Err
  | [], r => (r, none)
  | f :: fs, r =>
    match f r with
    | (r2, none) => runSteps fs r2
    | (r2, some e) => (r2, some e)

/-- Running a chain of canonical `then` wrappers is exactly the in-order,
short-circuiting sequential execution of the underlying steps; a failure is
forwarded (alone) to the error channel. -/
theorem execChain_map_thenWrapper {Req Resp Err : Type}
    (fns : List (Step Req Err)) (r : Req) :
    @execChain Req Resp Err (fns.map thenWrapper) r =
      match runSteps fns r with
      | (r2, none) => ⟨r2, none, [], none⟩
      | (r2, some e) => ⟨r2, none, [e], none⟩ := by
  induction fns generalizing r with
  | nil => rfl
  | cons f fs ih =>
    rcases h : f r with ⟨r2, oe⟩
    cases oe with
    | none =>
      have h1 : @thenWrapper Req Resp Err f r = (r2, .next) := by
        simp [thenWrapper, h]
      simp [execChain, h1, ih, runSteps, h]
    | some e =>
      have h1 : @thenWrapper Req Resp Err f r = (r2, .nextErr e) := by
        simp [thenWrapper, h]
      simp [execChain, h1, runSteps, h]

/-- An instrumented step: on a trace-typed request it records its index `i`
and then fails exactly when `i = k`. -/
def tStep (k i : Nat) : Step (List Nat) Unit :=
  fun tr => (tr ++ [i], if i == k then some () else none)

theorem runSteps_append {Req Err : Type} (as bs : List (Step Req Err)) (r : Req) :
    runSteps (as ++ bs) r =
      match runSteps as r with
      | (r2, none) => runSteps bs r2
      | (r2, some e) => (r2, some e) := by
  induction as generalizing r with
  | nil => rfl
  | cons f fs ih =>
    rcases h : f r with ⟨r2, oe⟩
    cases oe with
    | none => simp [runSteps, h, ih]
    | some e => simp [runSteps, h]

/-- Trace of the instrumented steps `tStep k 0, …, tStep k (n-1)`: if `k < n`
exactly the steps `0, …, k` run (in order) and the chain fails at `k`;
otherwise all `n` steps run in order and the chain succeeds. -/
theorem runSteps_tStep (k n : Nat) (tr : List Nat) :
    runSteps ((List.range n).map (tStep k)) tr =
      if k < n then (tr ++ List.range (k + 1), some ())
      else (tr ++ List.range n, none) := by
  induction n with
  | zero => simp [runSteps]
  | succ n ih =>
    rw [List.range_succ, List.map_append, runSteps_append, ih]
    by_cases hk : k < n
    · have hk1 : k < n + 1 := Nat.lt_succ_of_lt hk
      simp [hk, hk1]
    · by_cases hk2 : k = n
      · subst hk2
        simp [hk, runSteps, tStep, List.range_succ, List.append_assoc]
      · have hk3 : ¬ k < n + 1 := by omega
        have hne : (n == k) = false := by
          simp [Nat.beq_eq_true_eq]
          omega
        simp [hk, hk3, runSteps, tStep, hne, List.range_succ, List.append_assoc]

/-- A JSON-like runtime value, standing in for the untyped contents of a
request's path parameters, query parameters, or body. -/
inductive Value where
  | vNull : Value
  | vStr (s : String) : Value
  | vNum (n : Int) : Value
  | vBool (b : Bool) : Value
deriving DecidableEq

/-- Modelled from the spec: a `NarrowingDescriptor` — "an opaque schema
handed to a narrowing-step factory"; the schema language itself belongs to
the external marshalling library (`@zensors/sheriff`), which is out of
scope, so a minimal concrete schema language stands in for it. -/
inductive Descr where
  | dStr : Descr
  | dNum : Descr
  | dBool : Descr
deriving DecidableEq

/-- Whether a value satisfies a descriptor. -/
def vSatisfies : Value → Descr → Bool
  | .vStr _, .dStr => true
  | .vNum _, .dNum => true
  | .vBool _, .dBool => true
  | _, _ => false

/-- The request-time error taxonomy: a `ValidationError` carrying a
human-readable message and the offending value, or an arbitrary domain
error raised by a user-supplied step. -/
inductive RErr where
  | validation (msg : String) (offending : Value) : RErr
  | domain (msg : String) : RErr
deriving DecidableEq

/-- Modelled from the spec: the validation collaborator's single contract,
"`validate(value, descriptor) -> T | raises ValidationError`" — the
`marshal` function of the external `@zensors/sheriff` library.  Returns
`none` on success and the raised `ValidationError` (with a message and the
offending value) on failure. -/
def marshal (v : Value) (d : Descr) : Option RErr :=
  if vSatisfies v d then none else some (.validation "Marshalling failed." v)

/-- A request as the narrowing-step factories see it: its path parameters,
query parameters and body facets. -/
structure ReqV where
  params : Value
  query : Value
  body : Value
deriving DecidableEq

/-- `marshalParams` of the canonical variant (src/unnamed/part_000):
validates `req.params` against the descriptor and returns the request
itself (the narrowing is static; the cast does not change the object). -/
def marshalParams (d : Descr) : Step ReqV RErr :=
  fun req => (req, marshal req.params d)

/-- `marshalQuery` of the canonical variant (src/unnamed/part_000):
validates `req.query` against the descriptor and returns the request
itself. -/
def marshalQuery (d : Descr) : Step ReqV RErr :=
  fun req => (req, marshal req.query d)

/-- `marshalBody` (identical in all three variants): validates `req.body`
against the descriptor and returns the request itself. -/
def marshalBody (d : Descr) : Step ReqV RErr :=
  fun req => (req, marshal req.body d)

/-- `marshalParams` of the legacy variants (src/src/index.ts line 158,
src/unnamed/part_001 line 137): `marshal(req.body, description)` — it
validates the body, not the path parameters it names and statically
narrows. -/
def marshalParamsLegacy (d : Descr) : Step ReqV RErr :=
  fun req => (req, marshal req.body d)

/-- `marshalQuery` of the legacy variants (src/src/index.ts line 165,
src/unnamed/part_001 line 144): `marshal(req.body, description)` — it
validates the body, not the query parameters it names and statically
narrows. -/
def marshalQueryLegacy (d : Descr) : Step ReqV RErr :=
  fun req => (req, marshal req.body d)

/-- The four HTTP methods a `LeafRouter` can be created for. -/
inductive Method where
  | get : Method
  | post : Method
  | put : Method
  | del : Method
deriving DecidableEq

/-- One registration held by an `ExpressRouter`: a middleware added by
`Router.then` (`router.use(wrapper)`), a mounted sub-router added by
`Router.use` with a `Router` delegate (registered in its compiled
`toExpress` form, i.e. by reference to the delegate's own handler list), a
raw usable added by `Router.use`, or a terminal method+path route written by
`LeafRouter.return` / `LeafRouter.finish`. -/
inductive Entry (Req Resp Err : Type) where
  | middleware (h : Handler Req Resp Err) : Entry Req Resp Err
  | mount (subpath : Option String) (target : Nat) : Entry Req Resp Err
  | mountRaw (subpath : Option String) (h : Handler Req Resp Err) : Entry Req Resp Err
  | route (m : Method) (path : String) (hs : List (Handler Req Resp Err)) : Entry Req Resp Err

/-- The heap of `ExpressRouter` objects: index `i` holds the ordered handler
list of the `ExpressRouter` with reference `i`.  Builders hold references
into this store, so that sharing of "the same underlying handler list
object" is reference equality. -/
abbrev World (Req Resp Err : Type) : Type :=
  List (List (Entry Req Resp Err))

/-- Append one registration to the handler list of the `ExpressRouter` with
reference `ref` (in-place mutation of the shared list). -/
def appendEntry {Req Resp Err : Type} (w : World Req Resp Err) (ref : Nat)
    (e : Entry Req Resp Err) : World Req Resp Err :=
  w.set ref (w.getD ref [] ++ [e])

/-- The `UseAfterConsume` error: "This Router has already been consumed.",
thrown by `Consumable.checkConsumed`. -/
inductive BuildErr where
  | useAfterConsume : BuildErr
deriving DecidableEq

/-- A `Router` builder instance: its own `Consumable` state (the `consumed`
flag) and a reference to its underlying `ExpressRouter`. -/
structure Router where
  consumed : Bool
  routerRef : Nat
deriving DecidableEq

/-- A `LeafRouter` builder instance: its own `Consumable` state, a reference
to the shared `ExpressRouter`, the endpoint's method and path, and its own
accumulated (not yet registered) handler chain. -/
structure LeafRouter (Req Resp Err : Type) where
  consumed : Bool
  routerRef : Nat
  method : Method
  path : String
  handlers : List (Handler Req Resp Err)

/-- `new Router()` with no argument: allocates a fresh `ExpressRouter`. -/
def newRouter {Req Resp Err : Type} (w : World Req Resp Err) :
    Router × World Req Resp Err :=
  ({ consumed := false, routerRef := w.length }, w ++ [[]])

/-- `Router.use(subpath?, router)` with a `Router` delegate
(src/src/index.ts lines 48–58, src/unnamed/part_000 lines 108–118):
`this.consume()`, then `first.toExpress()` on the delegate (which consumes
the delegate, or throws if the delegate is already consumed), then
`this.router.use(...)`, then `return new Router(this.router)`.
Result: (this after the call, delegate after the call, world after the
call, returned value or thrown error). -/
def routerUse {Req Resp Err : Type} (r : Router) (w : World Req Resp Err)
    (sub : Option String) (d : Router) :
    Router × Router × World Req Resp Err × Except BuildErr Router :=
  if r.consumed then (r, d, w, .error .useAfterConsume)
  else
    let self : Router := { r with consumed := true }
    if d.consumed then (self, d, w, .error .useAfterConsume)
    else
      (self, { d with consumed := true },
       appendEntry w r.routerRef (.mount sub d.routerRef),
       .ok { consumed := false, routerRef := r.routerRef })

/-- `Router.use(subpath?, usable)` with a raw Express usable:
`this.consume()`, register the usable, `return new Router(this.router)`. -/
def routerUseRaw {Req Resp Err : Type} (r : Router) (w : World Req Resp Err)
    (sub : Option String) (h : Handler Req Resp Err) :
    Router × World Req Resp Err × Except BuildErr Router :=
  if r.consumed then (r, w, .error .useAfterConsume)
  else
    ({ r with consumed := true },
     appendEntry w r.routerRef (.mountRaw sub h),
     .ok { consumed := false, routerRef := r.routerRef })

/-- `Router.then(fn)` (src/unnamed/part_000 lines 128–141): `this.consume()`,
`this.router.use(wrapper)` where the wrapper is `thenWrapper fn`, then
`return new Router(this.router)`.  The legacy variants differ only inside
the wrapper (`thenWrapperNoCatch`), not in the builder discipline. -/
def routerThen {Req Resp Err : Type} (r : Router) (w : World Req Resp Err)
    (fn : Step Req Err) :
    Router × World Req Resp Err × Except BuildErr Router :=
  if r.consumed then (r, w, .error .useAfterConsume)
  else
    ({ r with consumed := true },
     appendEntry w r.routerRef (.middleware (thenWrapper fn)),
     .ok { consumed := false, routerRef := r.routerRef })

/-- The common body of the four method factories `Router.get` /
`Router.post` / `Router.put` / `Router.delete`: `this.checkConsumed()` (does
not consume), then `return new LeafRouter(this.router, method, path)`. -/
def routerMethod {Req Resp Err : Type} (r : Router) (w : World Req Resp Err)
    (m : Method) (path : String) :
    Router × World Req Resp Err × Except BuildErr (LeafRouter Req Resp Err) :=
  if r.consumed then (r, w, .error .useAfterConsume)
  else
    (r, w,
     .ok { consumed := false, routerRef := r.routerRef, method := m,
           path := path, handlers := [] })

/-- `Router.toExpress()`: `this.consume()`, then `return this.router`. -/
def routerToExpress {Req Resp Err : Type} (r : Router) (w : World Req Resp Err) :
    Router × World Req Resp Err × Except BuildErr Nat :=
  if r.consumed then (r, w, .error .useAfterConsume)
  else ({ r with consumed := true }, w, .ok r.routerRef)

/-- `LeafRouter.then(fn)` (src/src/index.ts lines 118–131): `this.consume()`,
then `return new LeafRouter(this.router, this.method, this.path,
this.handlers.concat([wrapper]))` — `concat` builds a fresh array; nothing
is written to the shared `ExpressRouter`. -/
def leafThen {Req Resp Err : Type} (l : LeafRouter Req Resp Err)
    (w : World Req Resp Err) (fn : Step Req Err) :
    LeafRouter Req Resp Err × World Req Resp Err ×
      Except BuildErr (LeafRouter Req Resp Err) :=
  if l.consumed then (l, w, .error .useAfterConsume)
  else
    ({ l with consumed := true }, w,
     .ok { consumed := false, routerRef := l.routerRef, method := l.method,
           path := l.path, handlers := l.handlers ++ [thenWrapper fn] })

/-- `LeafRouter.return(fn)` (src/unnamed/part_000 lines 290–304):
`this.consume()`, then `this.router[this.method](this.path,
...this.handlers, terminalWrapper)` — the terminal registration, consisting
of the accumulated handlers followed by `returnWrapper fn`, is written into
the shared handler list. -/
def leafReturn {Req Resp Err : Type} (l : LeafRouter Req Resp Err)
    (w : World Req Resp Err) (fn : Req → Except Err Resp) :
    LeafRouter Req Resp Err × World Req Resp Err × Except BuildErr Unit :=
  if l.consumed then (l, w, .error .useAfterConsume)
  else
    ({ l with consumed := true },
     appendEntry w l.routerRef
       (.route l.method l.path (l.handlers ++ [returnWrapper fn])),
     .ok ())

/-- `LeafRouter.finish(fn)`: `this.consume()`, then register the accumulated
handlers followed by the caller's terminal handler itself (which is fully
responsible for the response). -/
def leafFinish {Req Resp Err : Type} (l : LeafRouter Req Resp Err)
    (w : World Req Resp Err) (h : Handler Req Resp Err) :
    LeafRouter Req Resp Err × World Req Resp Err × Except BuildErr Unit :=
  if l.consumed then (l, w, .error .useAfterConsume)
  else
    ({ l with consumed := true },
     appendEntry w l.routerRef (.route l.method l.path (l.handlers ++ [h])),
     .ok ())

/-- The operations callable on a `Router` instance. -/
inductive RouterOp (Req Resp Err : Type) where
  | useRouter (sub : Option String) (d : Router) : RouterOp Req Resp Err
  | useRaw (sub : Option String) (h : Handler Req Resp Err) : RouterOp Req Resp Err
  | thenStep (fn : Step Req Err) : RouterOp Req Resp Err
  | get (path : String) : RouterOp Req Resp Err
  | post (path : String) : RouterOp Req Resp Err
  | put (path : String) : RouterOp Req Resp Err
  | del (path : String) : RouterOp Req Resp Err
  | toExpress : RouterOp Req Resp Err

/-- Whether a `Router` operation is a consuming one (`use`, `then`,
`toExpress`) as opposed to a method factory, which only checks. -/
def RouterOp.consuming {Req Resp Err : Type} : RouterOp Req Resp Err → Bool
  | .get _ => false
  | .post _ => false
  | .put _ => false
  | .del _ => false
  | _ => true

/-- What a `Router` operation returns on success. -/
inductive RouterRet (Req Resp Err : Type) where
  | router (r : Router) : RouterRet Req Resp Err
  | leaf (l : LeafRouter Req Resp Err) : RouterRet Req Resp Err
  | express (ref : Nat) : RouterRet Req Resp Err

/-- The full effect of one `Router` operation: the instance's own state
after the call, the state of a `Router` delegate passed to `use` (if any),
the world after the call, and the returned value or thrown error. -/
structure RouterOut (Req Resp Err : Type) where
  self : Router
  delegate : Option Router
  world : World Req Resp Err
  result : Except BuildErr (RouterRet Req Resp Err)

/-- Dispatch one operation on a `Router` instance. -/
def applyRouterOp {Req Resp Err : Type} :
    RouterOp Req Resp Err → Router → World Req Resp Err → RouterOut Req Resp Err
  | .useRouter sub d, r, w =>
    let (self, d2, w2, res) := routerUse r w sub d
    ⟨self, some d2, w2, res.map .router⟩
  | .useRaw sub h, r, w =>
    let (self, w2, res) := routerUseRaw r w sub h
    ⟨self, none, w2, res.map .router⟩
  | .thenStep fn, r, w =>
    let (self, w2, res) := routerThen r w fn
    ⟨self, none, w2, res.map .router⟩
  | .get p, r, w =>
    let (self, w2, res) := routerMethod r w .get p
    ⟨self, none, w2, res.map .leaf⟩
  | .post p, r, w =>
    let (self, w2, res) := routerMethod r w .post p
    ⟨self, none, w2, res.map .leaf⟩
  | .put p, r, w =>
    let (self, w2, res) := routerMethod r w .put p
    ⟨self, none, w2, res.map .leaf⟩
  | .del p, r, w =>
    let (self, w2, res) := routerMethod r w .del p
    ⟨self, none, w2, res.map .leaf⟩
  | .toExpress, r, w =>
    let (self, w2, res) := routerToExpress r w
    ⟨self, none, w2, res.map .express⟩

/-- The operations callable on a `LeafRouter` instance (all of them
consume). -/
inductive LeafOp (Req Resp Err : Type) where
  | thenStep (fn : Step Req Err) : LeafOp Req Resp Err
  | ret (fn : Req → Except Err Resp) : LeafOp Req Resp Err
  | finish (h : Handler Req Resp Err) : LeafOp Req Resp Err

/-- The full effect of one `LeafRouter` operation: the instance's own state
after the call, the world after the call, and the returned value (the new
`LeafRouter` for `then`, nothing for `return`/`finish`) or thrown error. -/
structure LeafOut (Req Resp Err : Type) where
  self : LeafRouter Req Resp Err
  world : World Req Resp Err
  result : Except BuildErr (Option (LeafRouter Req Resp Err))

/-- Dispatch one operation on a `LeafRouter` instance. -/
def applyLeafOp {Req Resp Err : Type} :
    LeafOp Req Resp Err → LeafRouter Req Resp Err → World Req Resp Err →
      LeafOut Req Resp Err
  | .thenStep fn, l, w =>
    let (self, w2, res) := leafThen l w fn
    ⟨self, w2, res.map some⟩
  | .ret fn, l, w =>
    let (self, w2, res) := leafReturn l w fn
    ⟨self, w2, res.map (fun _ => none)⟩
  | .finish h, l, w =>
    let (self, w2, res) := leafFinish l w h
    ⟨self, w2, res.map (fun _ => none)⟩

/-- Whether an operation returned normally. -/
def opOk {ε α : Type} : Except ε α → Bool
  | .ok _ => true
  | .error _ => false

/-- Every `Router` operation invoked on an already-consumed instance throws
`UseAfterConsume` before doing anything: the result is the error, the world
is untouched, and the instance itself is unchanged. -/
theorem routerOp_on_consumed {Req Resp Err : Type} (op : RouterOp Req Resp Err)
    (r : Router) (w : World Req Resp Err) (h : r.consumed = true) :
    (applyRouterOp op r w).result = .error .useAfterConsume ∧
    (applyRouterOp op r w).world = w ∧
    (applyRouterOp op r w).self = r := by
  cases op <;>
    simp [applyRouterOp, routerUse, routerUseRaw, routerThen, routerMethod,
      routerToExpress, h, Except.map]

/-- Every `LeafRouter` operation invoked on an already-consumed instance
throws `UseAfterConsume` before doing anything. -/
theorem leafOp_on_consumed {Req Resp Err : Type} (op : LeafOp Req Resp Err)
    (l : LeafRouter Req Resp Err) (w : World Req Resp Err) (h : l.consumed = true) :
    (applyLeafOp op l w).result = .error .useAfterConsume ∧
    (applyLeafOp op l w).world = w ∧
    (applyLeafOp op l w).self = l := by
  cases op <;>
    simp [applyLeafOp, leafThen, leafReturn, leafFinish, h, Except.map]

/-- A consuming `Router` operation that returns normally leaves the instance
it was invoked on marked consumed. -/
theorem routerOp_consumes {Req Resp Err : Type} (op : RouterOp Req Resp Err)
    (r : Router) (w : World Req Resp Err) (hc : op.consuming = true)
    (hok : opOk (applyRouterOp op r w).result = true) :
    (applyRouterOp op r w).self.consumed = true := by
  cases op with
  | useRouter sub d =>
    by_cases h : r.consumed
    · simp [applyRouterOp, routerUse, h, Except.map, opOk] at hok
    · by_cases hd : d.consumed <;>
        simp [applyRouterOp, routerUse, h, hd, Except.map]
  | useRaw sub hh =>
    by_cases h : r.consumed
    · simp [applyRouterOp, routerUseRaw, h, Except.map, opOk] at hok
    · simp [applyRouterOp, routerUseRaw, h, Except.map]
  | thenStep fn =>
    by_cases h : r.consumed
    · simp [applyRouterOp, routerThen, h, Except.map, opOk] at hok
    · simp [applyRouterOp, routerThen, h, Except.map]
  | get p => simp [RouterOp.consuming] at hc
  | post p => simp [RouterOp.consuming] at hc
  | put p => simp [RouterOp.consuming] at hc
  | del p => simp [RouterOp.consuming] at hc
  | toExpress =>
    by_cases h : r.consumed
    · simp [applyRouterOp, routerToExpress, h, Except.map, opOk] at hok
    · simp [applyRouterOp, routerToExpress, h, Except.map]

/-- A `LeafRouter` operation that returns normally leaves the instance it
was invoked on marked consumed (every `LeafRouter` operation consumes). -/
theorem leafOp_consumes {Req Resp Err : Type} (op : LeafOp Req Resp Err)
    (l : LeafRouter Req Resp Err) (w : World Req Resp Err)
    (hok : opOk (applyLeafOp op l w).result = true) :
    (applyLeafOp op l w).self.consumed = true := by
  cases op with
  | thenStep fn =>
    by_cases h : l.consumed
    · simp [applyLeafOp, leafThen, h, Except.map, opOk] at hok
    · simp [applyLeafOp, leafThen, h, Except.map]
  | ret fn =>
    by_cases h : l.consumed
    · simp [applyLeafOp, leafReturn, h, Except.map, opOk] at hok
    · simp [applyLeafOp, leafReturn, h, Except.map]
  | finish hh =>
    by_cases h : l.consumed
    · simp [applyLeafOp, leafFinish, h, Except.map, opOk] at hok
    · simp [applyLeafOp, leafFinish, h, Except.map]

/-- C1: once any consuming operation (use, then, return, finish,
toExpress) has succeeded on a builder (Router or LeafRouter), every
subsequent operation on that same instance — consuming or not, method
factories included — fails with UseAfterConsume. -/
theorem c1_consume_once_blocks_every_later_op {Req Resp Err : Type}
    (op1 op2 : RouterOp Req Resp Err) (r : Router) (w : World Req Resp Err)
    (lop1 lop2 : LeafOp Req Resp Err) (l : LeafRouter Req Resp Err)
    (hc : op1.consuming = true)
    (hok : opOk (applyRouterOp op1 r w).result = true)
    (hlok : opOk (applyLeafOp lop1 l w).result = true) :
    (applyRouterOp op2 (applyRouterOp op1 r w).self
        (applyRouterOp op1 r w).world).result = .error .useAfterConsume ∧
    (applyLeafOp lop2 (applyLeafOp lop1 l w).self
        (applyLeafOp lop1 l w).world).result = .error .useAfterConsume := by
  constructor
  · exact (routerOp_on_consumed op2 _ _ (routerOp_consumes op1 r w hc hok)).1
  · exact (leafOp_on_consumed lop2 _ _ (leafOp_consumes lop1 l w hlok)).1

/-- Concrete builder instances and operations over unit request, response
and error types, used by the witnesses below. -/
def uCompile : RouterOp Unit Unit Unit := .toExpress

def uGet : RouterOp Unit Unit Unit := .get "/x"

def uRet : LeafOp Unit Unit Unit := .ret fun _ => .ok ()

def uLeafThen : LeafOp Unit Unit Unit := .thenStep fun u => (u, none)

def uRouter0 : Router := ⟨false, 0⟩

def uWorld0 : World Unit Unit Unit := [[]]

def uLeaf0 : LeafRouter Unit Unit Unit := ⟨false, 0, .get, "/", []⟩

theorem c1_witness :
    uCompile.consuming = true ∧
    opOk (applyRouterOp uCompile uRouter0 uWorld0).result = true ∧
    opOk (applyLeafOp uRet uLeaf0 uWorld0).result = true ∧
    ((applyRouterOp uGet (applyRouterOp uCompile uRouter0 uWorld0).self
        (applyRouterOp uCompile uRouter0 uWorld0).world).result
          = .error .useAfterConsume ∧
      (applyLeafOp uLeafThen (applyLeafOp uRet uLeaf0 uWorld0).self
        (applyLeafOp uRet uLeaf0 uWorld0).world).result
          = .error .useAfterConsume) :=
  ⟨rfl, rfl, rfl,
    c1_consume_once_blocks_every_later_op uCompile uGet uRouter0 uWorld0
      uRet uLeafThen uLeaf0 rfl rfl rfl⟩

/-- C2: steps registered via successive `then` calls run, on a request
processed by the compiled chain, in exactly registration order with
short-circuit on failure: generally, executing the compiled wrappers equals
the in-order sequential execution of the underlying steps (first conjunct);
concretely, with instrumented steps `0, …, n-1` of which step `k` fails,
exactly steps `0, …, k` are invoked, in order (second conjunct), and when no
step fails all `n` are invoked in order (third conjunct). -/
theorem c2_steps_in_registration_order {Req Resp Err : Type}
    (fns : List (Step Req Err)) (r : Req) (n k : Nat) (hk : k < n) :
    (@execChain Req Resp Err (fns.map thenWrapper) r =
      match runSteps fns r with
      | (r2, none) => ⟨r2, none, [], none⟩
      | (r2, some e) => ⟨r2, none, [e], none⟩) ∧
    (@execChain (List Nat) Unit Unit
        ((List.range n).map fun i => thenWrapper (tStep k i)) []).req
      = List.range (k + 1) ∧
    (@execChain (List Nat) Unit Unit
        ((List.range n).map fun i => thenWrapper (tStep n i)) []).req
      = List.range n := by
  refine ⟨execChain_map_thenWrapper fns r, ?_, ?_⟩
  · have hmap : ((List.range n).map (tStep k)).map (@thenWrapper (List Nat) Unit Unit) =
        (List.range n).map fun i => thenWrapper (tStep k i) := by
      rw [List.map_map]
      rfl
    rw [← hmap, execChain_map_thenWrapper, runSteps_tStep]
    simp [hk]
  · have hmap : ((List.range n).map (tStep n)).map (@thenWrapper (List Nat) Unit Unit) =
        (List.range n).map fun i => thenWrapper (tStep n i) := by
      rw [List.map_map]
      rfl
    rw [← hmap, execChain_map_thenWrapper, runSteps_tStep]
    simp

theorem c2_witness :
    1 < 3 ∧
    (@execChain (List Nat) Unit Unit
        ((List.range 3).map fun i => thenWrapper (tStep 1 i)) []).req
      = List.range 2 :=
  ⟨by decide,
    (@c2_steps_in_registration_order Unit Unit Unit
      [] () 3 1 (by decide)).2.1⟩

/-- A step over a unit request that always fails with the error "boom". -/
def failStep : Step Unit String := fun u => (u, some "boom")

/-- A terminal function that always raises "boom". -/
def raiseFn : Unit → Except String Nat := fun _ => .error "boom"

/-- A terminal function that returns 7. -/
def sevenFn : Unit → Except String Nat := fun _ => .ok 7

/-- C3: the claim says a non-terminal step's failure is caught by the
registered wrapper and forwarded to the chain's single error channel.  The
wrapper of the canonical variant (src/unnamed/part_000) does exactly that
(third and fourth conjuncts), but the wrapper of src/src/index.ts lines
63–66 and src/unnamed/part_001 lines 42–45 has no try/catch: on the same
failing step it forwards nothing to the error channel and the failure
escapes the pipeline uncaught (first and second conjuncts). -/
theorem c3_nocatch_wrapper_lets_error_escape :
    (@execChain Unit Unit String [thenWrapperNoCatch failStep] ()).errors = [] ∧
    (@execChain Unit Unit String [thenWrapperNoCatch failStep] ()).uncaught
      = some "boom" ∧
    (@execChain Unit Unit String [thenWrapper failStep] ()).errors = ["boom"] ∧
    (@execChain Unit Unit String [thenWrapper failStep] ()).uncaught = none :=
  ⟨rfl, rfl, rfl, rfl⟩

/-- C4: the claim says the terminal handler registered by
`LeafRouter.return(f)` sends `f(request)` as the response, and on a raising
`f` sends no response and forwards exactly one error to the error channel.
The canonical variant (src/unnamed/part_000 lines 290–304) does exactly
that (first three conjuncts), but the variant of src/src/index.ts lines
133–143 has no try/catch and no `next` parameter: on a raising `f` it sends
no response yet forwards zero errors — the failure escapes the pipeline
(last three conjuncts). -/
theorem c4_nocatch_return_forwards_no_error :
    (execChain [returnWrapper sevenFn] ()).response = some 7 ∧
    (execChain [returnWrapper raiseFn] ()).response = none ∧
    (execChain [returnWrapper raiseFn] ()).errors = ["boom"] ∧
    (execChain [returnWrapperNoCatch raiseFn] ()).response = none ∧
    (execChain [returnWrapperNoCatch raiseFn] ()).errors = [] ∧
    (execChain [returnWrapperNoCatch raiseFn] ()).uncaught = some "boom" :=
  ⟨rfl, rfl, rfl, rfl, rfl, rfl⟩

/-- A request whose path parameters and query parameters violate the string
descriptor while its body satisfies it. -/
def reqPQ : ReqV := ⟨.vNum 3, .vNum 4, .vStr "ok"⟩

/-- C5: the claim says each narrowing-step factory reads its own request
facet.  The canonical variant (src/unnamed/part_000) does: on a request
whose params and query violate the descriptor while the body satisfies it,
its `marshalParams` / `marshalQuery` raise a `ValidationError` carrying the
offending facet value, and the error propagates through the same chain
error channel as any other step failure (first three conjuncts).  The
variants of src/src/index.ts lines 155–167 and src/unnamed/part_001 lines
134–146 instead validate `req.body` in `marshalParams` and `marshalQuery`:
on the same request they accept (fourth and fifth conjuncts), never reading
the facet they name and statically narrow. -/
theorem c5_legacy_marshal_reads_wrong_facet :
    marshalParams .dStr reqPQ
      = (reqPQ, some (.validation "Marshalling failed." (.vNum 3))) ∧
    marshalQuery .dStr reqPQ
      = (reqPQ, some (.validation "Marshalling failed." (.vNum 4))) ∧
    (@execChain ReqV Unit RErr [thenWrapper (marshalParams .dStr)] reqPQ).errors
      = [.validation "Marshalling failed." (.vNum 3)] ∧
    marshalParamsLegacy .dStr reqPQ = (reqPQ, none) ∧
    marshalQueryLegacy .dStr reqPQ = (reqPQ, none) :=
  ⟨rfl, rfl, rfl, rfl, rfl⟩

/-- C6: for every descriptor and request, `marshalBody` on a body that
satisfies the descriptor returns the request object itself, unchanged and
without error; on a body that violates it, it raises a `ValidationError`
(carrying a message and the offending body) and returns the request
unmutated. -/
theorem c6_marshalBody_id_or_validation_error (d : Descr) (req : ReqV) :
    (vSatisfies req.body d = true → marshalBody d req = (req, none)) ∧
    (vSatisfies req.body d = false →
      marshalBody d req
        = (req, some (.validation "Marshalling failed." req.body))) := by
  constructor <;> intro h <;> simp [marshalBody, marshal, h]

theorem c6_witness :
    vSatisfies (Value.vStr "x") .dStr = true ∧
    marshalBody .dStr ⟨.vNull, .vNull, .vStr "x"⟩
      = (⟨.vNull, .vNull, .vStr "x"⟩, none) ∧
    vSatisfies (Value.vNum 3) .dStr = false ∧
    marshalBody .dStr ⟨.vNull, .vNull, .vNum 3⟩
      = (⟨.vNull, .vNull, .vNum 3⟩,
         some (.validation "Marshalling failed." (.vNum 3))) :=
  ⟨by decide,
    (c6_marshalBody_id_or_validation_error .dStr ⟨.vNull, .vNull, .vStr "x"⟩).1
      (by decide),
    by decide,
    (c6_marshalBody_id_or_validation_error .dStr ⟨.vNull, .vNull, .vNum 3⟩).2
      (by decide)⟩

/-- C7: a builder operation that fails with `UseAfterConsume` fails before
doing any other work: after a `Router` has been passed to
`compile()`/`toExpress()` (which succeeds, first conjunct), any further
operation on it — `then` in particular — throws `UseAfterConsume` (second
conjunct) while leaving the compiled handler list exactly as it was: the
world after the failing call is the world after compilation (third
conjunct), which is the original world (fourth conjunct). -/
theorem c7_fail_before_any_work {Req Resp Err : Type} (r : Router)
    (w : World Req Resp Err) (op : RouterOp Req Resp Err)
    (h : r.consumed = false) :
    (@routerToExpress Req Resp Err r w).2.2 = .ok r.routerRef ∧
    (applyRouterOp op (routerToExpress r w).1 (routerToExpress r w).2.1).result
      = .error .useAfterConsume ∧
    (applyRouterOp op (routerToExpress r w).1 (routerToExpress r w).2.1).world
      = (routerToExpress r w).2.1 ∧
    (@routerToExpress Req Resp Err r w).2.1 = w := by
  have h1 : (@routerToExpress Req Resp Err r w).1.consumed = true := by
    simp [routerToExpress, h]
  refine ⟨by simp [routerToExpress, h], ?_, ?_, by simp [routerToExpress, h]⟩
  · exact (routerOp_on_consumed op _ _ h1).1
  · exact (routerOp_on_consumed op _ _ h1).2.1

theorem c7_witness :
    uRouter0.consumed = false ∧
    ((@routerToExpress Unit Unit Unit uRouter0 uWorld0).2.2
        = .ok uRouter0.routerRef ∧
      (applyRouterOp (.thenStep fun u => (u, none))
          (routerToExpress uRouter0 uWorld0).1
          (routerToExpress uRouter0 uWorld0).2.1).result
        = .error .useAfterConsume ∧
      (applyRouterOp (.thenStep fun u => (u, none))
          (routerToExpress uRouter0 uWorld0).1
          (routerToExpress uRouter0 uWorld0).2.1).world
        = (routerToExpress uRouter0 uWorld0).2.1 ∧
      (@routerToExpress Unit Unit Unit uRouter0 uWorld0).2.1 = uWorld0) :=
  ⟨rfl,
    c7_fail_before_any_work uRouter0 uWorld0 (.thenStep fun u => (u, none)) rfl⟩

/-- C8: on an unconsumed `Router`, each of `use` (with a `Router` delegate
or a raw usable) and `then` returns a new, unconsumed `Router` holding the
very same underlying `ExpressRouter` reference, and each method factory
returns a `LeafRouter` holding that same reference with an empty step
chain, so a terminal registration made through such a `LeafRouter` is
written into the one list the original chain exports (last conjunct). -/
theorem c8_derived_builders_share_handler_list {Req Resp Err : Type}
    (r d : Router) (w : World Req Resp Err) (fn : Step Req Err)
    (sub : Option String) (hraw : Handler Req Resp Err) (p : String)
    (h : r.consumed = false) (hd : d.consumed = false) :
    (routerThen r w fn).2.2 = .ok { consumed := false, routerRef := r.routerRef } ∧
    (routerUse r w sub d).2.2.2
      = .ok { consumed := false, routerRef := r.routerRef } ∧
    (routerUseRaw r w sub hraw).2.2
      = .ok { consumed := false, routerRef := r.routerRef } ∧
    (∀ m : Method, (routerMethod r w m p).2.2
      = .ok { consumed := false, routerRef := r.routerRef, method := m,
              path := p, handlers := [] }) ∧
    (∀ (m : Method) (g : Req → Except Err Resp),
      (leafReturn { consumed := false, routerRef := r.routerRef, method := m,
                    path := p, handlers := [] } w g).2.1
        = appendEntry w r.routerRef (.route m p [returnWrapper g])) := by
  refine ⟨by simp [routerThen, h], by simp [routerUse, h, hd],
    by simp [routerUseRaw, h], fun m => by simp [routerMethod, h],
    fun m g => by simp [leafReturn]⟩

theorem c8_witness :
    uRouter0.consumed = false ∧
    (@routerThen Unit Unit Unit uRouter0 uWorld0 (fun u => (u, none))).2.2
      = .ok { consumed := false, routerRef := uRouter0.routerRef } :=
  ⟨rfl,
    (c8_derived_builders_share_handler_list uRouter0 ⟨false, 1⟩ uWorld0
      (fun u => (u, none)) none (fun u => (u, .next)) "/x" rfl rfl).1⟩

/-- C9: `LeafRouter.then` on an unconsumed `LeafRouter` writes nothing into
the shared handler list (first conjunct), leaves the consumed instance's
own step chain unchanged (second conjunct), and returns a new `LeafRouter`
with a freshly concatenated step chain (third conjunct); the endpoint's
registration is written into the shared list only by `return` or `finish`
(fourth and fifth conjuncts). -/
theorem c9_leaf_then_registers_nothing {Req Resp Err : Type}
    (l : LeafRouter Req Resp Err) (w : World Req Resp Err) (fn : Step Req Err)
    (g : Req → Except Err Resp) (hfin : Handler Req Resp Err)
    (h : l.consumed = false) :
    (leafThen l w fn).2.1 = w ∧
    (leafThen l w fn).1.handlers = l.handlers ∧
    (leafThen l w fn).2.2
      = .ok { consumed := false, routerRef := l.routerRef, method := l.method,
              path := l.path, handlers := l.handlers ++ [thenWrapper fn] } ∧
    (leafReturn l w g).2.1
      = appendEntry w l.routerRef
          (.route l.method l.path (l.handlers ++ [returnWrapper g])) ∧
    (leafFinish l w hfin).2.1
      = appendEntry w l.routerRef
          (.route l.method l.path (l.handlers ++ [hfin])) := by
  refine ⟨by simp [leafThen, h], by simp [leafThen, h], by simp [leafThen, h],
    by simp [leafReturn, h], by simp [leafFinish, h]⟩

theorem c9_witness :
    uLeaf0.consumed = false ∧
    (leafThen uLeaf0 uWorld0 (fun u => (u, none))).2.1 = uWorld0 :=
  ⟨rfl,
    (c9_leaf_then_registers_nothing uLeaf0 uWorld0 (fun u => (u, none))
      (fun _ => .ok ()) (fun u => (u, .next)) rfl).1⟩

/-- C10: a successful `use` call (with or without a subpath) on an
unconsumed `Router`, given an unconsumed `Router` delegate, succeeds (first
conjunct), registers the delegate in compiled form against the shared list
(second conjunct), and also consumes the delegate (third conjunct), so that
every subsequent operation on the delegate — method factories included —
fails with `UseAfterConsume` (fourth conjunct). -/
theorem c10_use_consumes_delegate {Req Resp Err : Type} (r d : Router)
    (w : World Req Resp Err) (sub : Option String) (op : RouterOp Req Resp Err)
    (h : r.consumed = false) (hd : d.consumed = false) :
    opOk (@routerUse Req Resp Err r w sub d).2.2.2 = true ∧
    (@routerUse Req Resp Err r w sub d).2.2.1
      = appendEntry w r.routerRef (.mount sub d.routerRef) ∧
    (@routerUse Req Resp Err r w sub d).2.1 = { d with consumed := true } ∧
    (applyRouterOp op (routerUse r w sub d).2.1
        (routerUse r w sub d).2.2.1).result = .error .useAfterConsume := by
  have hdel : (@routerUse Req Resp Err r w sub d).2.1.consumed = true := by
    simp [routerUse, h, hd]
  refine ⟨by simp [routerUse, h, hd, opOk], by simp [routerUse, h, hd],
    by simp [routerUse, h, hd], (routerOp_on_consumed op _ _ hdel).1⟩

theorem c10_witness :
    uRouter0.consumed = false ∧
    (⟨false, 1⟩ : Router).consumed = false ∧
    (@applyRouterOp Unit Unit Unit (.get "/y")
        (routerUse uRouter0 uWorld0 none ⟨false, 1⟩).2.1
        (routerUse uRouter0 uWorld0 none ⟨false, 1⟩).2.2.1).result
      = .error .useAfterConsume :=
  ⟨rfl, rfl,
    (c10_use_consumes_delegate uRouter0 ⟨false, 1⟩ uWorld0 none (.get "/y")
      rfl rfl).2.2.2⟩

end Expedite
